import Mathlib

/-!
Shallow embedding of the VSTGUI event core (vstgui/lib/events.h):
the event type discriminant, the consumption flag, the modifier and
mouse-button bitmask value types, the flat event record standing for the
layout-extension hierarchy, the discriminant-based query-cast functions,
and the legacy bridging helpers.  Machine integers (uint32_t) are
modelled as Nat; bitwise complement on uint32 is modelled as xor with
the 32-bit all-ones mask.
-/

namespace VSTGUI

/-- Mask of 32 one bits, standing for the width of uint32_t. -/
def uint32Mask : Nat := 4294967295

/-- CCoord is a floating point coordinate in the source; the event core
performs no arithmetic on coordinates (they are only stored and read
back), so it is modelled as a rational number. -/
abbrev CCoord := Rat

/-- CPoint (from cpoint.h) as used by this core: a pair of coordinates. -/
structure CPoint where
  x : CCoord
  y : CCoord
deriving DecidableEq

/-- EventType enumeration, in source declaration order. -/
inductive EventType where
  | Unknown
  | MouseDown
  | MouseMove
  | MouseUp
  | MouseCancel
  | MouseEnter
  | MouseExit
  | MouseWheel
  | ZoomGesture
  | KeyUp
  | KeyDown
deriving DecidableEq, Fintype

/-- Underlying uint32_t value of each EventType enumerator (declaration
order, starting at 0, as in the source enum). -/
def EventType.toNat : EventType → Nat
  | .Unknown => 0
  | .MouseDown => 1
  | .MouseMove => 2
  | .MouseUp => 3
  | .MouseCancel => 4
  | .MouseEnter => 5
  | .MouseExit => 6
  | .MouseWheel => 7
  | .ZoomGesture => 8
  | .KeyUp => 9
  | .KeyDown => 10

/-- EventConsumeState: a uint32_t word recording the consumption state. -/
structure EventConsumeState where
  data : Nat
deriving DecidableEq

/-- Enumerator NotHandled of EventConsumeState. -/
def EventConsumeState.NotHandled : Nat := 0

/-- Enumerator Handled of EventConsumeState. -/
def EventConsumeState.Handled : Nat := 1

/-- Enumerator Last of EventConsumeState. -/
def EventConsumeState.Last : Nat := 2

/-- Boolean assignment operator of EventConsumeState:
data = state ? Handled : NotHandled. -/
def EventConsumeState.assign (_s : EventConsumeState) (state : Bool) :
    EventConsumeState :=
  ⟨if state then EventConsumeState.Handled else EventConsumeState.NotHandled⟩

/-- Boolean conversion operator of EventConsumeState: data & Handled,
converted to bool (nonzero test). -/
def EventConsumeState.toBool (s : EventConsumeState) : Bool :=
  s.data &&& EventConsumeState.Handled != 0

/-- EventConsumeState.reset: data = NotHandled. -/
def EventConsumeState.reset (_s : EventConsumeState) : EventConsumeState :=
  ⟨EventConsumeState.NotHandled⟩

/-- ModifierKey enumeration with its explicit bit values. -/
inductive ModifierKey where
  | Shift
  | Alt
  | Control
  | Super
  | None
deriving DecidableEq, Fintype

/-- Underlying uint32_t value of each ModifierKey enumerator
(Shift = 1, Alt = 2, Control = 4, Super = 8, None = 0). -/
def ModifierKey.toNat : ModifierKey → Nat
  | .Shift => 1
  | .Alt => 2
  | .Control => 4
  | .Super => 8
  | .None => 0

/-- Modifiers: a uint32_t bitset over ModifierKey. -/
structure Modifiers where
  data : Nat
deriving DecidableEq

/-- Modifiers::cast: the static_cast of a ModifierKey to uint32_t. -/
def Modifiers.cast (mod : ModifierKey) : Nat := mod.toNat

/-- Modifiers::empty: data == 0. -/
def Modifiers.empty (m : Modifiers) : Bool := m.data == 0

/-- Modifiers::has: data & cast (modifier), as bool. -/
def Modifiers.has (m : Modifiers) (modifier : ModifierKey) : Bool :=
  m.data &&& Modifiers.cast modifier != 0

/-- Modifiers::is (single key): data == cast (modifier). -/
def Modifiers.is (m : Modifiers) (modifier : ModifierKey) : Bool :=
  m.data == Modifiers.cast modifier

/-- Modifiers::is (initializer list): OR the casts of the listed keys
together, then compare with data. -/
def Modifiers.isList (m : Modifiers) (modifiers : List ModifierKey) : Bool :=
  m.data == modifiers.foldl (fun d mod => d ||| Modifiers.cast mod) 0

/-- Modifiers::add: data |= cast (modifier). -/
def Modifiers.add (m : Modifiers) (modifier : ModifierKey) : Modifiers :=
  ⟨m.data ||| Modifiers.cast modifier⟩

/-- Modifiers::remove: data &= ~cast (modifier), on uint32_t. -/
def Modifiers.remove (m : Modifiers) (modifier : ModifierKey) : Modifiers :=
  ⟨m.data &&& (uint32Mask ^^^ Modifiers.cast modifier)⟩

/-- Modifiers::clear: data = 0. -/
def Modifiers.clear (_m : Modifiers) : Modifiers := ⟨0⟩

/-- Modifiers assignment from a single ModifierKey: data = cast (modifier). -/
def Modifiers.assign (_m : Modifiers) (modifier : ModifierKey) : Modifiers :=
  ⟨Modifiers.cast modifier⟩

/-- Default-constructed Modifiers: data {0}. -/
def Modifiers.default : Modifiers := ⟨0⟩

/-- MouseEventButtonState::Position enumeration. -/
inductive MouseEventButtonState.Position where
  | Left
  | Middle
  | Right
  | Fourth
  | Fifth
deriving DecidableEq, Fintype

/-- Underlying uint32_t value of each Position enumerator
(Left = 1 shifted left by 1, then successive doublings). -/
def MouseEventButtonState.Position.toNat : MouseEventButtonState.Position → Nat
  | .Left => 2
  | .Middle => 4
  | .Right => 8
  | .Fourth => 16
  | .Fifth => 32

/-- MouseEventButtonState: a uint32_t bitset over mouse buttons. -/
structure MouseEventButtonState where
  data : Nat
deriving DecidableEq

/-- MouseEventButtonState::isLeft: data == Left. -/
def MouseEventButtonState.isLeft (s : MouseEventButtonState) : Bool :=
  s.data == MouseEventButtonState.Position.Left.toNat

/-- MouseEventButtonState::isMiddle: data == Middle. -/
def MouseEventButtonState.isMiddle (s : MouseEventButtonState) : Bool :=
  s.data == MouseEventButtonState.Position.Middle.toNat

/-- MouseEventButtonState::isRight: data == Right. -/
def MouseEventButtonState.isRight (s : MouseEventButtonState) : Bool :=
  s.data == MouseEventButtonState.Position.Right.toNat

/-- MouseEventButtonState::is: data == pos. -/
def MouseEventButtonState.is (s : MouseEventButtonState)
    (pos : MouseEventButtonState.Position) : Bool :=
  s.data == pos.toNat

/-- MouseEventButtonState::isOther: data == (1 shifted left by index). -/
def MouseEventButtonState.isOther (s : MouseEventButtonState)
    (index : Nat) : Bool :=
  s.data == (1 <<< index)

/-- MouseEventButtonState::has: data & pos, as bool. -/
def MouseEventButtonState.has (s : MouseEventButtonState)
    (pos : MouseEventButtonState.Position) : Bool :=
  s.data &&& pos.toNat != 0

/-- MouseEventButtonState::empty: data == 0. -/
def MouseEventButtonState.empty (s : MouseEventButtonState) : Bool :=
  s.data == 0

/-- MouseEventButtonState::add: data |= pos. -/
def MouseEventButtonState.add (s : MouseEventButtonState)
    (pos : MouseEventButtonState.Position) : MouseEventButtonState :=
  ⟨s.data ||| pos.toNat⟩

/-- MouseEventButtonState::set: data = pos. -/
def MouseEventButtonState.set (_s : MouseEventButtonState)
    (pos : MouseEventButtonState.Position) : MouseEventButtonState :=
  ⟨pos.toNat⟩

/-- MouseEventButtonState::clear: data = 0. -/
def MouseEventButtonState.clear (_s : MouseEventButtonState) :
    MouseEventButtonState :=
  ⟨0⟩

/-- Default-constructed MouseEventButtonState: data {0}. -/
def MouseEventButtonState.default : MouseEventButtonState := ⟨0⟩

/-- MouseEventButtonState single-Position constructor: calls set. -/
def MouseEventButtonState.ofPosition (pos : MouseEventButtonState.Position) :
    MouseEventButtonState :=
  MouseEventButtonState.default.set pos

/-- MouseEventButtonState::operator==: data == other.data. -/
def MouseEventButtonState.beq (s other : MouseEventButtonState) : Bool :=
  s.data == other.data

/-- GestureEvent::Phase enumeration. -/
inductive GestureEvent.Phase where
  | Unknown
  | Begin
  | Changed
  | End
deriving DecidableEq

/-- VirtualKey enumeration, in source declaration order. -/
inductive VirtualKey where
  | None
  | Back
  | Tab
  | Clear
  | Return
  | Pause
  | Escape
  | Space
  | Next
  | End
  | Home
  | Left
  | Up
  | Right
  | Down
  | PageUp
  | PageDown
  | Select
  | Print
  | Enter
  | Snapshot
  | Insert
  | Delete
  | Help
  | NumPad0
  | NumPad1
  | NumPad2
  | NumPad3
  | NumPad4
  | NumPad5
  | NumPad6
  | NumPad7
  | NumPad8
  | NumPad9
  | Multiply
  | Add
  | Separator
  | Subtract
  | Decimal
  | Divide
  | F1
  | F2
  | F3
  | F4
  | F5
  | F6
  | F7
  | F8
  | F9
  | F10
  | F11
  | F12
  | NumLock
  | Scroll
  | ShiftModifier
  | ControlModifier
  | AltModifier
  | Equals
deriving DecidableEq, Fintype

/-- Underlying uint32_t value of each VirtualKey enumerator (declaration
order, starting at 0, as in the source enum). -/
def VirtualKey.toNat : VirtualKey → Nat
  | .None => 0
  | .Back => 1
  | .Tab => 2
  | .Clear => 3
  | .Return => 4
  | .Pause => 5
  | .Escape => 6
  | .Space => 7
  | .Next => 8
  | .End => 9
  | .Home => 10
  | .Left => 11
  | .Up => 12
  | .Right => 13
  | .Down => 14
  | .PageUp => 15
  | .PageDown => 16
  | .Select => 17
  | .Print => 18
  | .Enter => 19
  | .Snapshot => 20
  | .Insert => 21
  | .Delete => 22
  | .Help => 23
  | .NumPad0 => 24
  | .NumPad1 => 25
  | .NumPad2 => 26
  | .NumPad3 => 27
  | .NumPad4 => 28
  | .NumPad5 => 29
  | .NumPad6 => 30
  | .NumPad7 => 31
  | .NumPad8 => 32
  | .NumPad9 => 33
  | .Multiply => 34
  | .Add => 35
  | .Separator => 36
  | .Subtract => 37
  | .Decimal => 38
  | .Divide => 39
  | .F1 => 40
  | .F2 => 41
  | .F3 => 42
  | .F4 => 43
  | .F5 => 44
  | .F6 => 45
  | .F7 => 46
  | .F8 => 47
  | .F9 => 48
  | .F10 => 49
  | .F11 => 50
  | .F12 => 51
  | .NumLock => 52
  | .Scroll => 53
  | .ShiftModifier => 54
  | .ControlModifier => 55
  | .AltModifier => 56
  | .Equals => 57

/-- Flat event record.  The source builds the variants by layout
extension (each struct adds fields to its parent); the shallow embedding
flattens the union of all fields into one record, with the EventType
discriminant telling which fields are meaningful, exactly as the
range-based casts do in the source. -/
structure Event where
  type : EventType
  id : Nat
  timestamp : Nat
  consumed : EventConsumeState
  modifiers : Modifiers
  mousePosition : CPoint
  buttonState : MouseEventButtonState
  clickCount : Nat
  deltaX : CCoord
  deltaY : CCoord
  wheelFlags : Nat
  phase : GestureEvent.Phase
  zoom : CCoord
  character : Nat
  virt : VirtualKey
  isRepeat : Bool
deriving DecidableEq

/-- MouseWheelEvent::Flags enumerator DirectionInvertedFromDevice. -/
def MouseWheelEvent.DirectionInvertedFromDevice : Nat := 1

/-- MouseWheelEvent::Flags enumerator PreciseDeltas. -/
def MouseWheelEvent.PreciseDeltas : Nat := 2

/-- Default-constructed Event.  The in-class field initializers are in
the header (type Unknown, consumed NotHandled, modifiers empty, click
count 0, zero deltas and flags, phase Unknown, character 0, virt None,
isRepeat false); id and timestamp are assigned by the Event constructor
body in events.cpp, which is not part of the provided sources, so they
are taken as parameters here (the spec says they are producer-assigned).
The zoom field is uninitialized in the source and set to 0 here. -/
def Event.base (id timestamp : Nat) : Event :=
  { type := .Unknown
    id := id
    timestamp := timestamp
    consumed := ⟨EventConsumeState.NotHandled⟩
    modifiers := ⟨0⟩
    mousePosition := ⟨0, 0⟩
    buttonState := ⟨0⟩
    clickCount := 0
    deltaX := 0
    deltaY := 0
    wheelFlags := 0
    phase := .Unknown
    zoom := 0
    character := 0
    virt := .None
    isRepeat := false }

/-- Assignment of a bool to the consumed field of an event
(event.consumed = b). -/
def Event.setConsumed (e : Event) (b : Bool) : Event :=
  { e with consumed := e.consumed.assign b }

/-- MouseEnterEvent default constructor: type = MouseEnter. -/
def MouseEnterEvent.default (id timestamp : Nat) : Event :=
  { Event.base id timestamp with type := .MouseEnter }

/-- MouseEnterEvent constructor from position, buttons and modifiers. -/
def MouseEnterEvent.make (id timestamp : Nat) (pos : CPoint)
    (buttons : MouseEventButtonState) (mods : Modifiers) : Event :=
  { MouseEnterEvent.default id timestamp with
    mousePosition := pos
    buttonState := buttons
    modifiers := mods }

/-- MouseExitEvent default constructor: type = MouseExit. -/
def MouseExitEvent.default (id timestamp : Nat) : Event :=
  { Event.base id timestamp with type := .MouseExit }

/-- MouseExitEvent constructor from position, buttons and modifiers. -/
def MouseExitEvent.make (id timestamp : Nat) (pos : CPoint)
    (buttons : MouseEventButtonState) (mods : Modifiers) : Event :=
  { MouseExitEvent.default id timestamp with
    mousePosition := pos
    buttonState := buttons
    modifiers := mods }

/-- MouseDownEvent default constructor: type = MouseDown. -/
def MouseDownEvent.default (id timestamp : Nat) : Event :=
  { Event.base id timestamp with type := .MouseDown }

/-- MouseDownEvent constructor from position and buttons. -/
def MouseDownEvent.make (id timestamp : Nat) (pos : CPoint)
    (buttons : MouseEventButtonState) : Event :=
  { MouseDownEvent.default id timestamp with
    mousePosition := pos
    buttonState := buttons }

/-- MouseDownEvent enumerator IgnoreFollowUpEvents = EventConsumeState::Last. -/
def MouseDownEvent.IgnoreFollowUpEvents : Nat := EventConsumeState.Last

/-- MouseDownEvent enumerator IgnoreFollowUpEventsBit =
1 shifted left by IgnoreFollowUpEvents. -/
def MouseDownEvent.IgnoreFollowUpEventsBit : Nat :=
  1 <<< MouseDownEvent.IgnoreFollowUpEvents

/-- MouseDownEvent::ignoreFollowUpMoveAndUpEvents (bool state): ORs the
IgnoreFollowUpEventsBit into consumed.data, or clears it with the
complemented mask. -/
def MouseDownEvent.ignoreFollowUpMoveAndUpEvents (e : Event) (state : Bool) :
    Event :=
  if state then
    { e with consumed := ⟨e.consumed.data ||| MouseDownEvent.IgnoreFollowUpEventsBit⟩ }
  else
    { e with consumed := ⟨e.consumed.data &&&
        (uint32Mask ^^^ MouseDownEvent.IgnoreFollowUpEventsBit)⟩ }

/-- MouseDownEvent::ignoreFollowUpMoveAndUpEvents (): reads the
IgnoreFollowUpEventsBit from consumed.data, as bool. -/
def MouseDownEvent.ignoreFollowUpMoveAndUpEventsGet (e : Event) : Bool :=
  e.consumed.data &&& MouseDownEvent.IgnoreFollowUpEventsBit != 0

/-- MouseMoveEvent default constructor: type = MouseMove. -/
def MouseMoveEvent.default (id timestamp : Nat) : Event :=
  { MouseDownEvent.default id timestamp with type := .MouseMove }

/-- MouseMoveEvent constructor from position and buttons. -/
def MouseMoveEvent.make (id timestamp : Nat) (pos : CPoint)
    (buttons : MouseEventButtonState) : Event :=
  { MouseMoveEvent.default id timestamp with
    mousePosition := pos
    buttonState := buttons }

/-- MouseUpEvent default constructor: type = MouseUp. -/
def MouseUpEvent.default (id timestamp : Nat) : Event :=
  { MouseDownEvent.default id timestamp with type := .MouseUp }

/-- MouseUpEvent constructor from position and buttons. -/
def MouseUpEvent.make (id timestamp : Nat) (pos : CPoint)
    (buttons : MouseEventButtonState) : Event :=
  { MouseUpEvent.default id timestamp with
    mousePosition := pos
    buttonState := buttons }

/-- MouseCancelEvent constructor: type = MouseCancel. -/
def MouseCancelEvent.default (id timestamp : Nat) : Event :=
  { Event.base id timestamp with type := .MouseCancel }

/-- MouseWheelEvent constructor: type = MouseWheel. -/
def MouseWheelEvent.default (id timestamp : Nat) : Event :=
  { Event.base id timestamp with type := .MouseWheel }

/-- ZoomGestureEvent constructor: type = ZoomGesture. -/
def ZoomGestureEvent.default (id timestamp : Nat) : Event :=
  { Event.base id timestamp with type := .ZoomGesture }

/-- KeyboardEvent constructor: type = t (parameter, KeyDown at the call
sites that use the default argument). -/
def KeyboardEvent.make (id timestamp : Nat) (t : EventType) : Event :=
  { Event.base id timestamp with type := t }

/-- KeyboardEvent default construction: the constructor default argument
is EventType::KeyDown. -/
def KeyboardEvent.default (id timestamp : Nat) : Event :=
  KeyboardEvent.make id timestamp .KeyDown

/-- The noEvent sentinel: a default-constructed Event (discriminant
Unknown). -/
def noEvent (id timestamp : Nat) : Event := Event.base id timestamp

/-- Helper for stating properties uniformly: an otherwise default event
carrying a given discriminant. -/
def eventOfType (t : EventType) : Event := { Event.base 0 0 with type := t }

/-- asMousePositionEvent: switch on event.type; the matching cases
return a pointer aliasing the event, the default case returns null. -/
def asMousePositionEvent (event : Event) : Option Event :=
  match event.type with
  | .ZoomGesture => some event
  | .MouseWheel => some event
  | .MouseDown => some event
  | .MouseMove => some event
  | .MouseUp => some event
  | .MouseEnter => some event
  | .MouseExit => some event
  | _ => none

/-- asMouseEvent: switch on event.type; the matching cases return a
pointer aliasing the event, the default case returns null. -/
def asMouseEvent (event : Event) : Option Event :=
  match event.type with
  | .MouseDown => some event
  | .MouseMove => some event
  | .MouseUp => some event
  | .MouseEnter => some event
  | .MouseExit => some event
  | _ => none

/-- asMouseDownEvent: switch on event.type; the matching cases return a
pointer aliasing the event, the default case returns null. -/
def asMouseDownEvent (event : Event) : Option Event :=
  match event.type with
  | .MouseDown => some event
  | .MouseMove => some event
  | .MouseUp => some event
  | _ => none

/-- asModifierEvent: switch on event.type; the matching cases return a
pointer aliasing the event, the default case returns null. -/
def asModifierEvent (event : Event) : Option Event :=
  match event.type with
  | .KeyDown => some event
  | .KeyUp => some event
  | .MouseWheel => some event
  | .MouseDown => some event
  | .MouseMove => some event
  | .MouseUp => some event
  | _ => none

/-- asKeyboardEvent: switch on event.type; the matching cases return a
pointer aliasing the event, the default case returns null. -/
def asKeyboardEvent (event : Event) : Option Event :=
  match event.type with
  | .KeyDown => some event
  | .KeyUp => some event
  | _ => none

/-- Modelled from the spec: cbuttonstate.h (the legacy CButtonState flat
mask and its CButton bit constants) is not part of the provided sources.
Per spec section 4.4 the legacy representation is one flat bitmask with
distinct bits for each pointer button, each modifier and double-click;
the bit positions here are chosen as distinct powers of two.  Left
button bit. -/
def kLButton : Nat := 1

/-- Modelled from the spec: legacy middle button bit (see kLButton). -/
def kMButton : Nat := 2

/-- Modelled from the spec: legacy right button bit (see kLButton). -/
def kRButton : Nat := 4

/-- Modelled from the spec: legacy shift modifier bit (see kLButton). -/
def kShift : Nat := 8

/-- Modelled from the spec: legacy control modifier bit (see kLButton). -/
def kControl : Nat := 16

/-- Modelled from the spec: legacy alt modifier bit (see kLButton). -/
def kAlt : Nat := 32

/-- Modelled from the spec: legacy fourth button bit (see kLButton). -/
def kButton4 : Nat := 64

/-- Modelled from the spec: legacy fifth button bit (see kLButton). -/
def kButton5 : Nat := 128

/-- Modelled from the spec: legacy double-click bit (see kLButton). -/
def kDoubleClick : Nat := 256

/-- buttonStateFromEventModifiers: starts from an empty legacy mask and
ORs in the legacy Control, Shift and Alt bits for the modifiers the
Modifiers value has. -/
def buttonStateFromEventModifiers (mods : Modifiers) : Nat :=
  let state : Nat := 0
  let state := if mods.has .Control then state ||| kControl else state
  let state := if mods.has .Shift then state ||| kShift else state
  let state := if mods.has .Alt then state ||| kAlt else state
  state

/-- buttonStateFromMouseEvent: folds the modifiers, the pointer buttons,
and the double-click condition (a mouse-down-family event with
clickCount greater than 1, obtained through asMouseDownEvent) into the
legacy flat mask. -/
def buttonStateFromMouseEvent (event : Event) : Nat :=
  let state := buttonStateFromEventModifiers event.modifiers
  let state := if event.buttonState.has .Left then state ||| kLButton else state
  let state := if event.buttonState.has .Right then state ||| kRButton else state
  let state := if event.buttonState.has .Middle then state ||| kMButton else state
  let state := if event.buttonState.has .Fourth then state ||| kButton4 else state
  let state := if event.buttonState.has .Fifth then state ||| kButton5 else state
  match asMouseDownEvent event with
  | some downEvent => if downEvent.clickCount > 1 then state ||| kDoubleClick else state
  | none => state

/-- toVstVirtualKey on the raw uint32_t value of the key: identity
(truncated to unsigned char) when the value is at most the value of
VirtualKey::Equals, else the sentinel 0. -/
def toVstVirtualKeyCode (k : Nat) : Nat :=
  if k ≤ VirtualKey.Equals.toNat then k % 256 else 0

/-- toVstVirtualKey: static_cast the key to uint32_t and apply the range
check against VirtualKey::Equals. -/
def toVstVirtualKey (key : VirtualKey) : Nat :=
  toVstVirtualKeyCode key.toNat

/-- Modelled from the spec: vstkeycode.h (the legacy VstKeyCode record
and its MODIFIER bit constants) is not part of the provided sources.
Per spec section 4.4 the legacy key code carries a character, a
single-byte virtual key and a flat modifier bitmask with distinct bits;
the bit positions here are chosen as distinct powers of two.  Legacy
shift modifier bit. -/
def MODIFIER_SHIFT : Nat := 1

/-- Modelled from the spec: legacy alternate modifier bit
(see MODIFIER_SHIFT). -/
def MODIFIER_ALTERNATE : Nat := 2

/-- Modelled from the spec: legacy command modifier bit
(see MODIFIER_SHIFT). -/
def MODIFIER_COMMAND : Nat := 4

/-- Modelled from the spec: legacy control modifier bit
(see MODIFIER_SHIFT). -/
def MODIFIER_CONTROL : Nat := 8

/-- Modelled from the spec: the legacy VstKeyCode record
(see MODIFIER_SHIFT). -/
structure VstKeyCode where
  character : Nat
  virt : Nat
  modifier : Nat
deriving DecidableEq

/-- toVstKeyCode: copies the character, maps the virtual key through
toVstVirtualKey, and ORs the legacy modifier bits (Shift, Alt, Control,
and Super to the command bit) into the modifier mask. -/
def toVstKeyCode (event : Event) : VstKeyCode :=
  let modifier : Nat := 0
  let modifier := if event.modifiers.has .Shift then modifier ||| MODIFIER_SHIFT else modifier
  let modifier := if event.modifiers.has .Alt then modifier ||| MODIFIER_ALTERNATE else modifier
  let modifier := if event.modifiers.has .Control then modifier ||| MODIFIER_CONTROL else modifier
  let modifier := if event.modifiers.has .Super then modifier ||| MODIFIER_COMMAND else modifier
  { character := event.character
    virt := toVstVirtualKey event.virt
    modifier := modifier }

/-!
Helper lemmas about single-bit masks, shared by the theorems below.
-/

/-- A conjunction with a single bit mask is either that mask or zero. -/
theorem and_two_pow_eq (x i : Nat) :
    x &&& 2 ^ i = if x.testBit i then 2 ^ i else 0 := by
  apply Nat.eq_of_testBit_eq
  intro j
  rw [Nat.testBit_and, Nat.testBit_two_pow]
  by_cases hij : i = j
  · subst hij
    cases h : x.testBit i <;> simp [h]
  · cases h : x.testBit i <;>
      simp [h, hij, Nat.testBit_two_pow_of_ne, Nat.zero_testBit]

/-- The nonzero test of a conjunction with a single bit mask is exactly
the bit test. -/
theorem and_two_pow_bne (x i : Nat) : (x &&& 2 ^ i != 0) = x.testBit i := by
  rw [and_two_pow_eq]
  cases h : x.testBit i
  · simp
  · simp only [if_pos rfl, bne_iff_ne, ne_eq, decide_eq_true_eq]
    exact Nat.pos_iff_ne_zero.mp (Nat.two_pow_pos i)

/-- ORing a single bit in makes its nonzero test true. -/
theorem add_sets_bit (x i : Nat) : ((x ||| 2 ^ i) &&& 2 ^ i != 0) = true := by
  rw [and_two_pow_bne, Nat.testBit_or, Nat.testBit_two_pow_self, Bool.or_true]

/-- ANDing with a mask whose bit i is clear makes the nonzero test of
bit i false. -/
theorem remove_clears_bit (x i m : Nat) (hm : m.testBit i = false) :
    ((x &&& m) &&& 2 ^ i != 0) = false := by
  rw [and_two_pow_bne, Nat.testBit_and, hm, Bool.and_false]

/-- ANDing with a mask whose bit i is set leaves the nonzero test of
bit i unchanged. -/
theorem and_mask_preserves_bit (x m i : Nat) (hm : m.testBit i = true) :
    ((x &&& m) &&& 2 ^ i != 0) = (x &&& 2 ^ i != 0) := by
  rw [and_two_pow_bne, and_two_pow_bne, Nat.testBit_and, hm, Bool.and_true]

/-- A conditional OR step keeps an already-set bit set. -/
theorem ifOr_keeps_bit_true (b : Bool) (x c i : Nat)
    (hx : x.testBit i = true) :
    (if b then x ||| c else x).testBit i = true := by
  cases b
  · simpa using hx
  · simp [Nat.testBit_or, hx]

/-- A conditional OR step with a constant whose bit i is clear keeps a
clear bit clear. -/
theorem ifOr_keeps_bit_false (b : Bool) (x c i : Nat)
    (hx : x.testBit i = false) (hc : c.testBit i = false) :
    (if b then x ||| c else x).testBit i = false := by
  cases b
  · simpa using hx
  · simp [Nat.testBit_or, hx, hc]

/-- A conditional OR step with a constant below 256 keeps a value below
256. -/
theorem ifOr_lt_256 (b : Bool) (x c : Nat) (hx : x < 256) (hc : c < 256) :
    (if b then x ||| c else x) < 256 := by
  cases b
  · simpa using hx
  · simpa using Nat.or_lt_two_pow (show x < 2 ^ 8 from hx) (show c < 2 ^ 8 from hc)

/-- Reading the consumption word of an explicitly given data value as a
bool is the test of bit 0. -/
theorem toBool_mk (x : Nat) :
    EventConsumeState.toBool ⟨x⟩ = x.testBit 0 :=
  and_two_pow_bne x 0

/-- The legacy modifier mask built by buttonStateFromEventModifiers is
below 256 (it only uses the bits 16, 8 and 32). -/
theorem bsfem_lt (mods : Modifiers) : buttonStateFromEventModifiers mods < 256 := by
  simp only [buttonStateFromEventModifiers]
  split_ifs <;> decide

/-- C1: for every event, each query-cast function returns a non-null
result exactly when the discriminant lies in its documented accepted
set, and null for every other discriminant (including Unknown and
MouseCancel). -/
theorem queryCast_accepted_sets (e : Event) :
    ((asMousePositionEvent e).isSome = true ↔ e.type ∈
      [EventType.MouseDown, .MouseMove, .MouseUp, .MouseEnter, .MouseExit,
        .MouseWheel, .ZoomGesture]) ∧
    ((asMouseEvent e).isSome = true ↔ e.type ∈
      [EventType.MouseDown, .MouseMove, .MouseUp, .MouseEnter, .MouseExit]) ∧
    ((asMouseDownEvent e).isSome = true ↔ e.type ∈
      [EventType.MouseDown, .MouseMove, .MouseUp]) ∧
    ((asModifierEvent e).isSome = true ↔ e.type ∈
      [EventType.KeyDown, .KeyUp, .MouseWheel, .MouseDown, .MouseMove,
        .MouseUp]) ∧
    ((asKeyboardEvent e).isSome = true ↔ e.type ∈
      [EventType.KeyDown, .KeyUp]) := by
  cases h : e.type <;>
    simp [asMousePositionEvent, asMouseEvent, asMouseDownEvent,
      asModifierEvent, asKeyboardEvent, h]

/-- C5: every concrete variant constructor sets the documented
discriminant, the noEvent sentinel is a default-constructed root event
with discriminant Unknown, and the mutating operations of the core
(consumption assignment and the follow-up-ignore flag) never change the
discriminant. -/
theorem constructors_set_discriminant :
    (∀ id ts pos buttons mods,
      (MouseEnterEvent.make id ts pos buttons mods).type = .MouseEnter) ∧
    (∀ id ts pos buttons mods,
      (MouseExitEvent.make id ts pos buttons mods).type = .MouseExit) ∧
    (∀ id ts pos buttons, (MouseDownEvent.make id ts pos buttons).type = .MouseDown) ∧
    (∀ id ts pos buttons, (MouseMoveEvent.make id ts pos buttons).type = .MouseMove) ∧
    (∀ id ts pos buttons, (MouseUpEvent.make id ts pos buttons).type = .MouseUp) ∧
    (∀ id ts, (MouseCancelEvent.default id ts).type = .MouseCancel) ∧
    (∀ id ts, (MouseWheelEvent.default id ts).type = .MouseWheel) ∧
    (∀ id ts, (ZoomGestureEvent.default id ts).type = .ZoomGesture) ∧
    (∀ id ts, (KeyboardEvent.default id ts).type = .KeyDown) ∧
    (∀ id ts, (noEvent id ts).type = .Unknown ∧ noEvent id ts = Event.base id ts) ∧
    (∀ e b, (Event.setConsumed e b).type = e.type) ∧
    (∀ e b, (MouseDownEvent.ignoreFollowUpMoveAndUpEvents e b).type = e.type) := by
  refine ⟨fun id ts pos buttons mods => rfl, fun id ts pos buttons mods => rfl,
    fun id ts pos buttons => rfl, fun id ts pos buttons => rfl,
    fun id ts pos buttons => rfl, fun id ts => rfl, fun id ts => rfl,
    fun id ts => rfl, fun id ts => rfl, fun id ts => ⟨rfl, rfl⟩,
    fun e b => rfl, fun e b => ?_⟩
  cases b <;> rfl

/-- C9: a MouseDownEvent constructed with a given position and button
state, then given modifiers and a click count, query-casts back through
the root event to the very same value, with every field reading back
unchanged. -/
theorem mouseDownEvent_roundTrip (id ts : Nat) (pos : CPoint)
    (buttons : MouseEventButtonState) (mods : Modifiers) (n : Nat) :
    asMouseDownEvent ({ MouseDownEvent.make id ts pos buttons with
        modifiers := mods, clickCount := n }) =
      some ({ MouseDownEvent.make id ts pos buttons with
        modifiers := mods, clickCount := n }) ∧
    ({ MouseDownEvent.make id ts pos buttons with
        modifiers := mods, clickCount := n } : Event).mousePosition = pos ∧
    ({ MouseDownEvent.make id ts pos buttons with
        modifiers := mods, clickCount := n } : Event).buttonState = buttons ∧
    ({ MouseDownEvent.make id ts pos buttons with
        modifiers := mods, clickCount := n } : Event).modifiers = mods ∧
    ({ MouseDownEvent.make id ts pos buttons with
        modifiers := mods, clickCount := n } : Event).clickCount = n ∧
    ({ MouseDownEvent.make id ts pos buttons with
        modifiers := mods, clickCount := n } : Event).type = .MouseDown ∧
    ({ MouseDownEvent.make id ts pos buttons with
        modifiers := mods, clickCount := n } : Event).id = id ∧
    ({ MouseDownEvent.make id ts pos buttons with
        modifiers := mods, clickCount := n } : Event).timestamp = ts :=
  ⟨rfl, rfl, rfl, rfl, rfl, rfl, rfl, rfl⟩

/-- A family-acceptance predicate over EventType is contiguous when any
discriminant whose underlying integer value lies between the values of
two accepted discriminants is itself accepted. -/
def contiguousOn (f : EventType → Bool) : Prop :=
  ∀ a b c : EventType, f a = true → f c = true →
    a.toNat ≤ b.toNat → b.toNat ≤ c.toNat → f b = true

instance (f : EventType → Bool) : Decidable (contiguousOn f) :=
  decidable_of_iff
    (∀ a b c : EventType, f a = true → f c = true →
      a.toNat ≤ b.toNat → b.toNat ≤ c.toNat → f b = true) Iff.rfl

/-- C3, counterexample: the accepted discriminant set of asModifierEvent
is not a contiguous range of the EventType enumeration: MouseUp (3) and
KeyDown (10) are accepted, but MouseCancel (4) in between is not. -/
theorem asModifierEvent_set_not_contiguous_cex :
    ¬ contiguousOn (fun t => (asModifierEvent (eventOfType t)).isSome) := by
  intro h
  have := h .MouseUp .MouseCancel .KeyDown (by decide) (by decide)
    (by decide) (by decide)
  simp [asModifierEvent, eventOfType] at this

/-- C3, amended: the accepted sets of asMouseDownEvent (MouseDown,
MouseMove, MouseUp) and asKeyboardEvent (KeyUp, KeyDown) are contiguous
ranges of EventType integer values, but the accepted sets of
asMousePositionEvent and asMouseEvent are not (MouseCancel lies inside
their integer span and is rejected), and the accepted set of
asModifierEvent is not (it is the union of the separated ranges
MouseDown..MouseUp, MouseWheel and KeyUp..KeyDown). -/
theorem queryCast_sets_contiguity :
    contiguousOn (fun t => (asMouseDownEvent (eventOfType t)).isSome) ∧
    contiguousOn (fun t => (asKeyboardEvent (eventOfType t)).isSome) ∧
    ¬ contiguousOn (fun t => (asMousePositionEvent (eventOfType t)).isSome) ∧
    ¬ contiguousOn (fun t => (asMouseEvent (eventOfType t)).isSome) ∧
    ¬ contiguousOn (fun t => (asModifierEvent (eventOfType t)).isSome) := by
  refine ⟨by decide, by decide, fun h => ?_, fun h => ?_, fun h => ?_⟩
  · have := h .MouseUp .MouseCancel .MouseEnter (by decide) (by decide)
      (by decide) (by decide)
    simp [asMousePositionEvent, eventOfType] at this
  · have := h .MouseUp .MouseCancel .MouseEnter (by decide) (by decide)
      (by decide) (by decide)
    simp [asMouseEvent, eventOfType] at this
  · have := h .MouseUp .MouseCancel .KeyUp (by decide) (by decide)
      (by decide) (by decide)
    simp [asModifierEvent, eventOfType] at this

/-- C2, counterexample: boolean assignment to the consumption flag does
not leave the reserved high bits unchanged: on a MouseDownEvent whose
IgnoreFollowUpEventsBit is set, assigning consumed = true clears that
bit. -/
theorem consumed_assign_clears_reserved_bit_cex :
    MouseDownEvent.ignoreFollowUpMoveAndUpEventsGet
        (MouseDownEvent.ignoreFollowUpMoveAndUpEvents
          (MouseDownEvent.make 0 0 ⟨0, 0⟩ ⟨0⟩) true) = true ∧
    MouseDownEvent.ignoreFollowUpMoveAndUpEventsGet
        ((MouseDownEvent.ignoreFollowUpMoveAndUpEvents
          (MouseDownEvent.make 0 0 ⟨0, 0⟩ ⟨0⟩) true).setConsumed true) = false := by
  constructor
  · decide
  · decide

/-- C2, amended: assigning a boolean to the consumption flag overwrites
the whole word with Handled or NotHandled — so it sets or clears the
Handled bit but also clears every reserved high bit (in particular the
pointer-down IgnoreFollowUpEventsBit) — while reading the flag as a
boolean tests only the Handled bit; the assigned boolean reads back. -/
theorem consumed_assign_overwrites (s : EventConsumeState) (b : Bool) :
    ((s.assign b).data =
      if b then EventConsumeState.Handled else EventConsumeState.NotHandled) ∧
    (s.toBool = s.data.testBit 0) ∧
    ((s.assign b).toBool = b) := by
  refine ⟨rfl, toBool_mk s.data, ?_⟩
  cases b
  · show EventConsumeState.toBool ⟨EventConsumeState.NotHandled⟩ = false
    rfl
  · show EventConsumeState.toBool ⟨EventConsumeState.Handled⟩ = true
    rfl

/-- C4: a default-constructed event reads consumed false, assigning
consumed = true reads back true (and false reads back false), and for a
pointer-down event both setting and clearing the follow-up-ignore flag
leave the boolean-readable consumption state (the Handled bit) exactly
as it was. -/
theorem consumption_flag_protocol :
    (∀ id ts, (Event.base id ts).consumed.toBool = false) ∧
    (∀ e : Event, (e.setConsumed true).consumed.toBool = true) ∧
    (∀ e : Event, (e.setConsumed false).consumed.toBool = false) ∧
    (∀ (e : Event) (b : Bool),
      (MouseDownEvent.ignoreFollowUpMoveAndUpEvents e b).consumed.toBool =
        e.consumed.toBool) := by
  refine ⟨fun id ts => ?_, fun e => ?_, fun e => ?_, fun e b => ?_⟩
  · show EventConsumeState.toBool ⟨EventConsumeState.NotHandled⟩ = false
    rfl
  · show EventConsumeState.toBool ⟨EventConsumeState.Handled⟩ = true
    rfl
  · show EventConsumeState.toBool ⟨EventConsumeState.NotHandled⟩ = false
    rfl
  cases b
  · show EventConsumeState.toBool
        ⟨e.consumed.data &&& (uint32Mask ^^^ MouseDownEvent.IgnoreFollowUpEventsBit)⟩ =
      EventConsumeState.toBool e.consumed
    calc EventConsumeState.toBool
          ⟨e.consumed.data &&& (uint32Mask ^^^ MouseDownEvent.IgnoreFollowUpEventsBit)⟩ =
        (e.consumed.data &&&
          (uint32Mask ^^^ MouseDownEvent.IgnoreFollowUpEventsBit)).testBit 0 :=
        toBool_mk _
      _ = e.consumed.data.testBit 0 := by
        rw [Nat.testBit_and,
          show (uint32Mask ^^^ MouseDownEvent.IgnoreFollowUpEventsBit).testBit 0 =
            true from by decide, Bool.and_true]
      _ = EventConsumeState.toBool e.consumed := (toBool_mk e.consumed.data).symm
  · show EventConsumeState.toBool
        ⟨e.consumed.data ||| MouseDownEvent.IgnoreFollowUpEventsBit⟩ =
      EventConsumeState.toBool e.consumed
    calc EventConsumeState.toBool
          ⟨e.consumed.data ||| MouseDownEvent.IgnoreFollowUpEventsBit⟩ =
        (e.consumed.data ||| MouseDownEvent.IgnoreFollowUpEventsBit).testBit 0 :=
        toBool_mk _
      _ = e.consumed.data.testBit 0 := by
        rw [Nat.testBit_or,
          show MouseDownEvent.IgnoreFollowUpEventsBit.testBit 0 = false from by
            decide, Bool.or_false]
      _ = EventConsumeState.toBool e.consumed := (toBool_mk e.consumed.data).symm

/-- C6: the bitmask value type contract: has tests exactly the flag's
bit; is tests the whole pattern against exactly one flag; the list form
of is tests against exactly the union of the listed flags; add sets the
flag's bit, remove clears it, clear empties the set, assignment from a
flag replaces the set; equality of button states compares the underlying
bit pattern; a default-constructed Modifiers is empty; and a ButtonState
after add Left then add Right has both buttons but is not exclusively
Left. -/
theorem bitmask_value_types_contract :
    (∀ m : Modifiers,
      m.has .Shift = m.data.testBit 0 ∧
      m.has .Alt = m.data.testBit 1 ∧
      m.has .Control = m.data.testBit 2 ∧
      m.has .Super = m.data.testBit 3) ∧
    (∀ s : MouseEventButtonState,
      s.has .Left = s.data.testBit 1 ∧
      s.has .Middle = s.data.testBit 2 ∧
      s.has .Right = s.data.testBit 3 ∧
      s.has .Fourth = s.data.testBit 4 ∧
      s.has .Fifth = s.data.testBit 5) ∧
    (∀ (m : Modifiers) (k : ModifierKey), m.is k = (m.data == Modifiers.cast k)) ∧
    (∀ (m : Modifiers) (l : List ModifierKey),
      m.isList l = (m.data == l.foldl (fun d mod => d ||| Modifiers.cast mod) 0)) ∧
    (∀ m : Modifiers,
      (m.add .Shift).has .Shift = true ∧ (m.add .Alt).has .Alt = true ∧
      (m.add .Control).has .Control = true ∧ (m.add .Super).has .Super = true) ∧
    (∀ m : Modifiers,
      (m.remove .Shift).has .Shift = false ∧ (m.remove .Alt).has .Alt = false ∧
      (m.remove .Control).has .Control = false ∧
      (m.remove .Super).has .Super = false) ∧
    (∀ m : Modifiers, (m.clear).data = 0 ∧ m.clear.empty = true) ∧
    (∀ (m : Modifiers) (k : ModifierKey), (m.assign k).data = Modifiers.cast k) ∧
    (∀ s other : MouseEventButtonState, (s.beq other = true) ↔ s.data = other.data) ∧
    (∀ (s : MouseEventButtonState) (p : MouseEventButtonState.Position),
      s.is p = (s.data == p.toNat)) ∧
    (Modifiers.default.empty = true) ∧
    (((MouseEventButtonState.default.add .Left).add .Right).has .Left = true ∧
      ((MouseEventButtonState.default.add .Left).add .Right).has .Right = true ∧
      ((MouseEventButtonState.default.add .Left).add .Right).isLeft = false ∧
      ((MouseEventButtonState.default.add .Left).add .Right).is .Left = false) := by
  refine ⟨fun m => ⟨and_two_pow_bne m.data 0, and_two_pow_bne m.data 1,
      and_two_pow_bne m.data 2, and_two_pow_bne m.data 3⟩,
    fun s => ⟨and_two_pow_bne s.data 1, and_two_pow_bne s.data 2,
      and_two_pow_bne s.data 3, and_two_pow_bne s.data 4,
      and_two_pow_bne s.data 5⟩,
    fun m k => rfl, fun m l => rfl,
    fun m => ⟨add_sets_bit m.data 0, add_sets_bit m.data 1,
      add_sets_bit m.data 2, add_sets_bit m.data 3⟩,
    fun m => ⟨remove_clears_bit m.data 0 _ (by decide),
      remove_clears_bit m.data 1 _ (by decide),
      remove_clears_bit m.data 2 _ (by decide),
      remove_clears_bit m.data 3 _ (by decide)⟩,
    fun m => ⟨rfl, rfl⟩, fun m k => rfl,
    fun s other => by simp [MouseEventButtonState.beq],
    fun s p => rfl, rfl, by decide, by decide, by decide, by decide⟩

/-- C8: toVstVirtualKey is total: every VirtualKey maps to its own
numeric value (they all lie at or below the value of Equals), and any
raw key value beyond the value of Equals maps to the sentinel 0. -/
theorem toVstVirtualKey_total :
    (∀ k : VirtualKey,
      toVstVirtualKey k =
        if k.toNat ≤ VirtualKey.Equals.toNat then k.toNat else 0) ∧
    (∀ n : Nat, VirtualKey.Equals.toNat < n → toVstVirtualKeyCode n = 0) := by
  constructor
  · decide
  · intro n h
    have h57 : VirtualKey.Equals.toNat = 57 := rfl
    rw [h57] at h
    unfold toVstVirtualKeyCode
    rw [h57, if_neg (by omega)]

/-- C8 witness: the theorem applied at the out-of-range raw value 100. -/
theorem toVstVirtualKey_total_witness :
    VirtualKey.Equals.toNat < 100 ∧ toVstVirtualKeyCode 100 = 0 :=
  ⟨by decide, toVstVirtualKey_total.2 100 (by decide)⟩

/-- C10: buttonStateFromEventModifiers ignores ModifierKey.Super — its
result on any Modifiers value equals its result with Super removed —
while toVstKeyCode does map Super, setting the legacy command-modifier
bit exactly when Super is held, so the two legacy bridges treat Super
differently. -/
theorem legacy_super_treatment :
    (∀ mods : Modifiers,
      buttonStateFromEventModifiers mods =
        buttonStateFromEventModifiers (mods.remove .Super)) ∧
    (∀ e : Event,
      ((toVstKeyCode e).modifier &&& MODIFIER_COMMAND != 0) =
        e.modifiers.has .Super) := by
  constructor
  · intro mods
    have hc : (mods.remove .Super).has .Control = mods.has .Control :=
      and_mask_preserves_bit mods.data (uint32Mask ^^^ 8) 2 (by decide)
    have hs : (mods.remove .Super).has .Shift = mods.has .Shift :=
      and_mask_preserves_bit mods.data (uint32Mask ^^^ 8) 0 (by decide)
    have ha : (mods.remove .Super).has .Alt = mods.has .Alt :=
      and_mask_preserves_bit mods.data (uint32Mask ^^^ 8) 1 (by decide)
    simp only [buttonStateFromEventModifiers, hc, hs, ha]
  · intro e
    cases h1 : e.modifiers.has .Shift <;> cases h2 : e.modifiers.has .Alt <;>
      cases h3 : e.modifiers.has .Control <;>
      cases h4 : e.modifiers.has .Super <;>
      simp [toVstKeyCode, h1, h2, h3, h4] <;> decide

/-- C7: a mouse down event with clickCount 2 whose button state contains
Left maps to a legacy mask containing both the left-button bit and the
double-click bit; and in general the double-click bit is present in the
result of buttonStateFromMouseEvent exactly when the event is in the
mouse-down family (MouseDown, MouseMove, MouseUp) and its clickCount
exceeds 1. -/
theorem buttonStateFromMouseEvent_doubleClick (e : Event) :
    (e.type = EventType.MouseDown → e.clickCount = 2 →
      e.buttonState.has .Left = true →
      (buttonStateFromMouseEvent e &&& kLButton != 0) = true ∧
      (buttonStateFromMouseEvent e &&& kDoubleClick != 0) = true) ∧
    ((buttonStateFromMouseEvent e &&& kDoubleClick != 0) = true ↔
      (e.type = .MouseDown ∨ e.type = .MouseMove ∨ e.type = .MouseUp) ∧
        1 < e.clickCount) := by
  have key : ∀ s : Nat, s < 256 →
      (((match asMouseDownEvent e with
          | some downEvent =>
              if downEvent.clickCount > 1 then s ||| kDoubleClick else s
          | none => s) &&& kDoubleClick != 0) = true ↔
        (e.type = .MouseDown ∨ e.type = .MouseMove ∨ e.type = .MouseUp) ∧
          1 < e.clickCount) := by
    intro s hs
    rw [show kDoubleClick = 2 ^ 8 from rfl]
    have hzero : (s &&& 2 ^ 8 != 0) = false := by
      rw [and_two_pow_bne, Nat.testBit_lt_two_pow (show s < 2 ^ 8 from hs)]
    cases ht : e.type <;> simp only [asMouseDownEvent, ht] <;>
      first
        | (rw [hzero]; simp)
        | (by_cases hcc : e.clickCount > 1
           · rw [if_pos hcc, add_sets_bit]
             simp [hcc]
           · rw [if_neg hcc, hzero]
             simp [hcc])
  have hiff : (buttonStateFromMouseEvent e &&& kDoubleClick != 0) = true ↔
      (e.type = .MouseDown ∨ e.type = .MouseMove ∨ e.type = .MouseUp) ∧
        1 < e.clickCount := by
    simp only [buttonStateFromMouseEvent]
    exact key _
      (ifOr_lt_256 _ _ _
        (ifOr_lt_256 _ _ _
          (ifOr_lt_256 _ _ _
            (ifOr_lt_256 _ _ _
              (ifOr_lt_256 _ _ _ (bsfem_lt e.modifiers) (by decide))
              (by decide))
            (by decide))
          (by decide))
        (by decide))
  refine ⟨fun ht hcc hleft => ⟨?_, hiff.mpr ⟨Or.inl ht, by omega⟩⟩, hiff⟩
  have h2 : e.clickCount > 1 := by omega
  simp only [buttonStateFromMouseEvent, asMouseDownEvent, ht, if_pos h2]
  rw [show kLButton = 2 ^ 0 from rfl, and_two_pow_bne, Nat.testBit_or,
    show Nat.testBit kDoubleClick 0 = false from by decide, Bool.or_false]
  apply ifOr_keeps_bit_true
  apply ifOr_keeps_bit_true
  apply ifOr_keeps_bit_true
  apply ifOr_keeps_bit_true
  rw [hleft]
  simp [Nat.testBit_or, kLButton]

/-- C7 witness: the theorem applied at a concrete left-button mouse down
event with clickCount 2. -/
theorem buttonStateFromMouseEvent_doubleClick_witness :
    (buttonStateFromMouseEvent { MouseDownEvent.make 0 0 ⟨0, 0⟩
        (MouseEventButtonState.ofPosition .Left) with clickCount := 2 } &&&
      kLButton != 0) = true ∧
    (buttonStateFromMouseEvent { MouseDownEvent.make 0 0 ⟨0, 0⟩
        (MouseEventButtonState.ofPosition .Left) with clickCount := 2 } &&&
      kDoubleClick != 0) = true :=
  (buttonStateFromMouseEvent_doubleClick _).1 rfl rfl (by decide)

end VSTGUI
